import Mathlib

/-!
Verification of the ntfy2clip client (`src/client.rs`) against its
natural-language specification.

The Rust program is a single file: a supervisor loop in `main`
(lines 110-119) repeatedly calls `connect_and_run` (lines 124-201),
which resolves configuration from environment variables, builds a
WebSocket upgrade request, and then drives a `tokio::select!` race
between the inbound frame stream and a periodic idle-watchdog timer.
This file gives a shallow embedding of those parts and proves or
refutes the frozen claims about them.
-/

namespace NtfyClip

/-! ## JSON values and the notification envelope

`WSMessage` mirrors the `#[derive(Deserialize)] struct WSMessage` at
lines 16-21 of `src/client.rs`: required string fields `event` and
`topic`, optional string field `message`.  `Json` is the value tree
that `serde_json` parses a text frame into; numeric payloads only
matter as "not a string", so a single integer constructor suffices. -/

inductive Json where
  | null : Json
  | bool (b : Bool) : Json
  | num (n : Int) : Json
  | str (s : String) : Json
  | arr (elems : List Json) : Json
  | obj (fields : List (String × Json)) : Json

structure WSMessage where
  event : String
  topic : String
  message : Option String
deriving Repr, DecidableEq

/-- Intermediate state of the derived serde deserializer while it walks
the fields of a JSON object: each known field is either not yet seen or
recorded once. -/
structure DecodeState where
  event : Option String
  topic : Option String
  message : Option (Option String)
deriving Repr, DecidableEq

/-- One step of the derived `Deserialize` impl for `WSMessage`: a known
field must be of the right type and must not repeat (serde reports
`duplicate field`); `message : Option<String>` accepts a string or
`null`; unknown fields are ignored (the struct has no
`deny_unknown_fields`). -/
def decodeField (st : DecodeState) (kv : String × Json) : Except String DecodeState :=
  if kv.fst = "event" then
    match st.event with
    | some _ => .error "duplicate field event"
    | none =>
      match kv.snd with
      | .str s => .ok { st with event := some s }
      | _ => .error "invalid type for field event"
  else if kv.fst = "topic" then
    match st.topic with
    | some _ => .error "duplicate field topic"
    | none =>
      match kv.snd with
      | .str s => .ok { st with topic := some s }
      | _ => .error "invalid type for field topic"
  else if kv.fst = "message" then
    match st.message with
    | some _ => .error "duplicate field message"
    | none =>
      match kv.snd with
      | .str s => .ok { st with message := some (some s) }
      | .null => .ok { st with message := some none }
      | _ => .error "invalid type for field message"
  else .ok st

def decodeFields : DecodeState → List (String × Json) → Except String DecodeState
  | st, [] => .ok st
  | st, kv :: rest =>
    match decodeField st kv with
    | .ok st' => decodeFields st' rest
    | .error e => .error e

/-- `serde_json::from_str::<WSMessage>` applied to an already-parsed
JSON value (line 159 of `src/client.rs`): only an object decodes; after
all fields are consumed, `event` and `topic` are required, a missing
`message` becomes `None`. -/
def decodeWSMessage : Json → Except String WSMessage
  | .obj fields =>
    match decodeFields ⟨none, none, none⟩ fields with
    | .error e => .error e
    | .ok st =>
      match st.event with
      | none => .error "missing field event"
      | some ev =>
        match st.topic with
        | none => .error "missing field topic"
        | some tp => .ok ⟨ev, tp, st.message.getD none⟩
  | _ => .error "invalid type: expected a map"

/-! ## Inbound frames and one receive-loop iteration

`Message` mirrors `tungstenite::protocol::Message`; the source matches
on `Text`, `Ping`, `Pong`, `Close` and catches `Binary` and `Frame`
with `_ => {}` (line 191).  A text frame's body either fails JSON
syntax parsing or is a parsed value; `serde_json::from_str` merges both
failure modes into one `Err`, mirrored by `decodeTextBody`. -/

inductive TextBody where
  | malformed (raw : String) : TextBody
  | json (j : Json) : TextBody

def decodeTextBody : TextBody → Except String WSMessage
  | .malformed _ => .error "expected value: invalid JSON syntax"
  | .json j => decodeWSMessage j

inductive Message where
  | text (body : TextBody) : Message
  | binary (payload : List Nat) : Message
  | ping (payload : List Nat) : Message
  | pong (payload : List Nat) : Message
  | close : Message
  | frame (payload : List Nat) : Message

/-- The result of `ws_stream.next()`: `Some(Ok(msg))` or `Some(Err(e))`
(line 155).  The `None` stream-exhausted case never enters the branch
body and is not modelled. -/
inductive RecvEvent where
  | ok (m : Message) : RecvEvent
  | err (e : String) : RecvEvent

/-- How one receive-branch iteration leaves the loop: continue
(`continue to next select`), `return Ok(())` (clean close), or
`return Err(cause)`. -/
inductive StepResult where
  | next : StepResult
  | closedOk : StepResult
  | errored (cause : String) : StepResult
deriving Repr, DecidableEq

/-- Observable effect of one receive-branch iteration: loop result,
clipboard dispatches spawned (`spawn(set_clip(...))`, line 164),
frames sent back on the socket, and whether `last_traffic` was
updated. -/
structure StepEffect where
  result : StepResult
  sinkCalls : List String
  sentFrames : List Message
  trafficUpdated : Bool

/-- The dispatch decision of lines 161-169: `(msg.topic == topic) &&
(msg.event == "message")`, then `if let Some(message) = msg.message`
spawns exactly one clipboard task with that text. -/
def dispatchEnvelope (cfgTopic : String) (m : WSMessage) : List String :=
  if m.topic == cfgTopic && m.event == "message" then
    match m.message with
    | some message => [message]
    | none => []
  else []

/-- One iteration of the receive branch (lines 155-192).
`last_traffic = Instant::now()` runs before the match, so every
inbound event updates traffic recency.  `pongSendErr` is the result of
the `ws_stream.send(Message::Pong(...)).await` at line 178: `none`
when the write succeeds, `some e` when it fails (the `?` then returns
`Err(e)` from the session). -/
def handleRecv (cfgTopic : String) (pongSendErr : Option String) : RecvEvent → StepEffect
  | .ok (.text body) =>
    match decodeTextBody body with
    | .ok m => ⟨.next, dispatchEnvelope cfgTopic m, [], true⟩
    | .error _ => ⟨.next, [], [], true⟩
  | .ok (.ping p) =>
    match pongSendErr with
    | none => ⟨.next, [], [.pong p], true⟩
    | some e => ⟨.errored e, [], [], true⟩
  | .ok (.pong _) => ⟨.next, [], [], true⟩
  | .ok .close => ⟨.closedOk, [], [], true⟩
  | .ok (.binary _) => ⟨.next, [], [], true⟩
  | .ok (.frame _) => ⟨.next, [], [], true⟩
  | .err e => ⟨.errored e, [], [], true⟩

/-! ## Configuration resolution (lines 122-135)

`connect_and_run` reads five environment variables at the start of
every invocation.  `Env` is a snapshot of the process environment at
one such read: `env::var` yields `Err` for an unset variable and
`Ok(value)` otherwise, so each slot is an `Option String`. -/

structure Env where
  timeoutVar : Option String
  serverVar : Option String
  schemeVar : Option String
  topicVar : Option String
  tokenVar : Option String
deriving Repr, DecidableEq

def DEFAULT_TIMEOUT : Nat := 120

/-- Rust's `str::parse::<u64>()`: an optional leading `+`, then one or
more ASCII digits, rejecting the empty digit string and values that
overflow `u64`. -/
def parseU64Digits (cs : List Char) : Option Nat :=
  if cs.isEmpty then none
  else if cs.all Char.isDigit then
    let n := cs.foldl (fun acc c => acc * 10 + (c.toNat - 48)) 0
    if n < 18446744073709551616 then some n else none
  else none

def parseU64 (s : String) : Option Nat :=
  match s.data with
  | '+' :: rest => parseU64Digits rest
  | cs => parseU64Digits cs

/-- Lines 125-129: `env::var("TIMEOUT").ok().and_then(parse).filter(|&t| t > 0).unwrap_or(DEFAULT_TIMEOUT)`. -/
def resolveTimeout (v : Option String) : Nat :=
  match v with
  | none => DEFAULT_TIMEOUT
  | some s =>
    match parseU64 s with
    | none => DEFAULT_TIMEOUT
    | some t => if t > 0 then t else DEFAULT_TIMEOUT

structure Config where
  timeout : Nat
  server : String
  scheme : String
  topic : String
  token : String
deriving Repr, DecidableEq

/-- Lines 125-135: resolve the five configuration values from one
environment snapshot.  Only a missing `TOPIC` fails; `SERVER`,
`SCHEME` and `TOKEN` have defaults and `TIMEOUT` silently falls back
to 120. -/
def resolveConfig (env : Env) : Except String Config :=
  let timeout := resolveTimeout env.timeoutVar
  let server := env.serverVar.getD "ntfy.sh"
  let scheme := env.schemeVar.getD "wss"
  match env.topicVar with
  | none => .error "TOPIC environment variable is required"
  | some topic =>
    let token := env.tokenVar.getD ""
    .ok ⟨timeout, server, scheme, topic, token⟩

/-! ## Upgrade-request construction (lines 133-144) -/

/-- Line 133: `format!("{}://{}/{}/ws", scheme, server, topic)`, the
string handed to `Url::parse`. -/
def targetUrl (c : Config) : String :=
  c.scheme ++ "://" ++ c.server ++ "/" ++ c.topic ++ "/ws"

/-- Validity test of `http::HeaderValue::from_str` (what
`format!("Bearer {token}").parse()` at lines 140-142 runs): it goes
through `try_from_generic`, whose byte check `is_valid` accepts any
byte `b` with `b >= 32 && b != 127 || b == b'\t'` — so control bytes
below 32 (except tab) and DEL are rejected, while the obs-text range
0x80-0xFF is accepted.  A char with code point ≥ 128 encodes entirely
to UTF-8 bytes ≥ 0x80, all of which `is_valid` accepts, and such a
char also has `32 ≤ toNat` and `toNat ≠ 127`; a char below 128 encodes
to the single byte equal to its code point — so the per-char test
below is equivalent to the per-byte one. -/
def headerValueValid (s : String) : Bool :=
  s.data.all fun c => (32 ≤ c.toNat && c.toNat != 127) || c.toNat == 9

/-- Lines 139-143: no `Authorization` header when the token is empty;
otherwise the header `Bearer <token>` is attached, unless the value
fails header-value validation ("Invalid token format"). -/
def authHeader (token : String) : Except String (Option String) :=
  if token = "" then .ok none
  else if headerValueValid ("Bearer " ++ token) then .ok (some ("Bearer " ++ token))
  else .error "Invalid token format"

/-- The WebSocket upgrade request as observable at the transport
boundary: the target URL string and the optional `Authorization`
header value. -/
structure Request where
  url : String
  authorization : Option String
deriving Repr, DecidableEq

/-- Lines 133-144: build the upgrade request from a resolved
configuration (URL normalization inside `Url::parse` is outside the
model; the url field records the string built at line 133). -/
def buildRequest (c : Config) : Except String Request :=
  match authHeader c.token with
  | .error e => .error e
  | .ok h => .ok ⟨targetUrl c, h⟩

/-! ## Idle watchdog (lines 150-151 and 194-198) -/

/-- Line 150: `time::interval(Duration::from_secs(timeout))`.  A tokio
interval completes its first tick immediately and then every period,
so the k-th tick occurs `k * timeout` time units after the session
starts. -/
def intervalTick (timeout k : Nat) : Nat := k * timeout

/-- Lines 194-198, the timer branch of the select: on a tick, if
`last_traffic.elapsed() > timeout` the session returns
`Err("No traffic in the last {timeout} seconds")`, otherwise the tick
is a no-op.  Times are in seconds since session start; `lastTraffic`
is when `last_traffic` was last assigned (line 151 at connect, line
156 on every inbound event). -/
def watchdogFire (timeout now lastTraffic : Nat) : Option String :=
  if now - lastTraffic > timeout then
    some ("No traffic in the last " ++ toString timeout ++ " seconds")
  else none

/-! ## Supervisor loop (lines 110-119) -/

/-- The result of one `connect_and_run().await`: `Ok(())` (peer sent a
close frame) or `Err(cause)` (any failure, from configuration error to
transport error to idle timeout). -/
inductive SessionOutcome where
  | cleanClose : SessionOutcome
  | failure (cause : String) : SessionOutcome
deriving Repr, DecidableEq

/-- Events observable from the supervisor loop in `main`: a call to
`connect_and_run` (a connection attempt), the clean-closure notice
(`println!` at line 112), the error log (line 114), and the cooldown
sleep (line 116, 5 seconds). -/
inductive SupEvent where
  | attempt : SupEvent
  | cleanNotice : SupEvent
  | logError (cause : String) : SupEvent
  | sleep (secs : Nat) : SupEvent
deriving Repr, DecidableEq, BEq

/-- Lines 111-117: react to one session outcome. `Ok` prints the clean
notice and loops immediately; `Err` logs and sleeps 5 seconds. -/
def handleOutcome : SessionOutcome → List SupEvent
  | .cleanClose => [.cleanNotice]
  | .failure e => [.logError e, .sleep 5]

/-- The trace of the unbounded `loop` at lines 110-119 while it
consumes the given sequence of session outcomes; the loop never exits,
so after the last given outcome the next connection attempt is already
underway — the trailing `attempt` records it. -/
def supervisorTrace : List SessionOutcome → List SupEvent
  | [] => [.attempt]
  | o :: rest => .attempt :: (handleOutcome o ++ supervisorTrace rest)

/-! ## Per-session environment reads (lines 110-119 with 125-135)

`connect_and_run` performs its `env::var` reads at every invocation,
inside the supervisor loop.  Given the environment snapshots observed
by successive invocations, each session resolves its own
configuration. -/

def sessionConfigs (envs : List Env) : List (Except String Config) :=
  envs.map resolveConfig

/-- The part of `connect_and_run` before any network activity: if
configuration resolution (lines 125-135) or request construction
(lines 136-144) fails, the function returns that error — determining
the session outcome with no transport involved. -/
def configPhaseOutcome (env : Env) : Option SessionOutcome :=
  match resolveConfig env with
  | .error e => some (.failure e)
  | .ok c =>
    match buildRequest c with
    | .error e => some (.failure e)
    | .ok _ => none

/-! ## Helper lemmas -/

theorem decodeField_unknown (st : DecodeState) (k : String) (v : Json)
    (h1 : k ≠ "event") (h2 : k ≠ "topic") (h3 : k ≠ "message") :
    decodeField st (k, v) = .ok st := by
  simp [decodeField, h1, h2, h3]

theorem decodeFields_unknown (k : String) (v : Json)
    (h1 : k ≠ "event") (h2 : k ≠ "topic") (h3 : k ≠ "message") :
    ∀ (fs₁ : List (String × Json)) (st : DecodeState) (fs₂ : List (String × Json)),
      decodeFields st (fs₁ ++ (k, v) :: fs₂) = decodeFields st (fs₁ ++ fs₂) := by
  intro fs₁
  induction fs₁ with
  | nil =>
    intro st fs₂
    simp [decodeFields, decodeField_unknown st k v h1 h2 h3]
  | cons kv rest ih =>
    intro st fs₂
    simp only [List.cons_append, decodeFields]
    cases decodeField st kv with
    | ok st' => exact ih st' fs₂
    | error e => rfl

theorem dispatchEnvelope_length (t : String) (m : WSMessage) :
    (dispatchEnvelope t m).length ≤ 1 := by
  unfold dispatchEnvelope
  split
  · cases m.message <;> simp
  · simp

theorem dispatchEnvelope_ne_nil (t : String) (m : WSMessage) :
    dispatchEnvelope t m ≠ [] ↔ m.event = "message" ∧ m.topic = t ∧ m.message.isSome := by
  rcases m with ⟨ev, tp, msg⟩
  unfold dispatchEnvelope
  by_cases h1 : tp = t
  · by_cases h2 : ev = "message"
    · simp only [h1, h2]
      simp
      cases msg <;> simp
    · simp [h1, h2]
  · simp [h1]

theorem dispatchEnvelope_hit (t : String) (m : WSMessage) (s : String)
    (he : m.event = "message") (ht : m.topic = t) (hm : m.message = some s) :
    dispatchEnvelope t m = [s] := by
  unfold dispatchEnvelope
  simp [he, ht, hm]

theorem handleRecv_json (cfgTopic : String) (pe : Option String) (j : Json)
    (m : WSMessage) (hdec : decodeWSMessage j = .ok m) :
    handleRecv cfgTopic pe (.ok (.text (.json j)))
      = ⟨.next, dispatchEnvelope cfgTopic m, [], true⟩ := by
  simp [handleRecv, decodeTextBody, hdec]

/-! ## Claim theorems -/

/-- C1: for every decoded notification envelope, the Sink is invoked
(with the envelope's message text, exactly once per envelope) iff the
envelope's event equals "message", its topic equals the configured
topic, and its message field is present; envelopes failing any of the
three conditions cause no Sink invocation, and extra JSON fields do
not affect the decision. -/
theorem dispatch_decision (cfgTopic : String) (j : Json) (m : WSMessage)
    (hdec : decodeWSMessage j = .ok m) :
    (handleRecv cfgTopic none (.ok (.text (.json j)))).sinkCalls.length ≤ 1
    ∧ ((handleRecv cfgTopic none (.ok (.text (.json j)))).sinkCalls ≠ []
        ↔ m.event = "message" ∧ m.topic = cfgTopic ∧ m.message.isSome)
    ∧ (∀ s, m.event = "message" → m.topic = cfgTopic → m.message = some s →
        (handleRecv cfgTopic none (.ok (.text (.json j)))).sinkCalls = [s])
    ∧ (∀ (fs₁ fs₂ : List (String × Json)) (k : String) (v : Json),
        k ≠ "event" → k ≠ "topic" → k ≠ "message" →
        decodeWSMessage (.obj (fs₁ ++ (k, v) :: fs₂)) = decodeWSMessage (.obj (fs₁ ++ fs₂))) := by
  rw [handleRecv_json cfgTopic none j m hdec]
  refine ⟨dispatchEnvelope_length cfgTopic m, dispatchEnvelope_ne_nil cfgTopic m,
    fun s he ht hm => dispatchEnvelope_hit cfgTopic m s he ht hm, ?_⟩
  intro fs₁ fs₂ k v h1 h2 h3
  simp [decodeWSMessage, decodeFields_unknown k v h1 h2 h3 fs₁ ⟨none, none, none⟩ fs₂]

/-- C1 witness: the envelope `{event:"message", topic:"T",
message:"hello"}` with configured topic "T" dispatches exactly
`["hello"]` to the Sink. -/
theorem dispatch_decision_witness :
    decodeWSMessage (.obj [("event", .str "message"), ("topic", .str "T"),
        ("message", .str "hello")]) = .ok ⟨"message", "T", some "hello"⟩
    ∧ (handleRecv "T" none (.ok (.text (.json (.obj [("event", .str "message"),
        ("topic", .str "T"), ("message", .str "hello")]))))).sinkCalls = ["hello"] :=
  ⟨rfl, (dispatch_decision "T" (.obj [("event", .str "message"), ("topic", .str "T"),
    ("message", .str "hello")]) ⟨"message", "T", some "hello"⟩ rfl).2.2.1 "hello" rfl rfl rfl⟩

/-- C6: an inbound ping with payload P yields exactly one pong with the
same payload P, updates traffic recency, and continues the loop; a
failing pong write terminates the session with the transport error. -/
theorem ping_pong_reply (cfgTopic : String) (p : List Nat) (e : String) :
    handleRecv cfgTopic none (.ok (.ping p)) = ⟨.next, [], [.pong p], true⟩
    ∧ handleRecv cfgTopic (some e) (.ok (.ping p)) = ⟨.errored e, [], [], true⟩ :=
  ⟨rfl, rfl⟩

/-- C7: a text frame whose body fails JSON decoding (syntax error or
envelope-shape error) neither terminates the session nor invokes the
Sink; the loop continues and traffic recency is still updated. -/
theorem malformed_frame_resilience (cfgTopic : String) (body : TextBody) (e : String)
    (h : decodeTextBody body = .error e) :
    handleRecv cfgTopic none (.ok (.text body)) = ⟨.next, [], [], true⟩ := by
  simp [handleRecv, h]

/-- C7 witness: a syntactically invalid body and a valid-JSON body
missing required fields both leave the loop running with no Sink
call. -/
theorem malformed_frame_resilience_witness :
    decodeTextBody (.malformed "not json") = .error "expected value: invalid JSON syntax"
    ∧ handleRecv "T" none (.ok (.text (.malformed "not json"))) = ⟨.next, [], [], true⟩
    ∧ decodeTextBody (.json (.obj [("topic", .str "T")])) = .error "missing field event"
    ∧ handleRecv "T" none (.ok (.text (.json (.obj [("topic", .str "T")]))))
        = ⟨.next, [], [], true⟩ :=
  ⟨rfl, malformed_frame_resilience "T" _ _ rfl, rfl,
    malformed_frame_resilience "T" _ _ rfl⟩

/-- C10: binary and raw frames fall into the catch-all arm: traffic
recency is updated, nothing is sent, the Sink is not invoked, and the
session continues. -/
theorem unlisted_frame_ignored (cfgTopic : String) (p q : List Nat) :
    handleRecv cfgTopic none (.ok (.binary p)) = ⟨.next, [], [], true⟩
    ∧ handleRecv cfgTopic none (.ok (.frame q)) = ⟨.next, [], [], true⟩ :=
  ⟨rfl, rfl⟩

/-- Number of connection attempts (calls to `connect_and_run`) in a
supervisor trace. -/
def countAttempts : List SupEvent → Nat
  | [] => 0
  | .attempt :: rest => countAttempts rest + 1
  | .cleanNotice :: rest => countAttempts rest
  | .logError _ :: rest => countAttempts rest
  | .sleep _ :: rest => countAttempts rest

theorem countAttempts_supervisorTrace (outs : List SessionOutcome) :
    countAttempts (supervisorTrace outs) = outs.length + 1 := by
  induction outs with
  | nil => rfl
  | cons o rest ih =>
    cases o <;> simp [supervisorTrace, handleOutcome, countAttempts, ih]

theorem supervisorTrace_head (outs : List SessionOutcome) :
    (supervisorTrace outs).head? = some .attempt := by
  cases outs <;> rfl

/-- C5: the idle watchdog fires at every multiple of `idle_timeout`;
a fire terminates the session iff the time since the last inbound
frame (which every inbound event refreshes) exceeds `idle_timeout`;
with no frames after connect, a terminating fire exists, and every
terminating fire is at or after `idle_timeout` — never earlier. -/
theorem idle_watchdog (T : Nat) (hT : 0 < T) :
    (∀ (cfgTopic : String) (pe : Option String) (ev : RecvEvent),
        (handleRecv cfgTopic pe ev).trafficUpdated = true)
    ∧ (∀ now lastTraffic, (watchdogFire T now lastTraffic).isSome ↔ T < now - lastTraffic)
    ∧ (∀ k, (watchdogFire T (intervalTick T k) 0).isSome → T ≤ intervalTick T k)
    ∧ (watchdogFire T (intervalTick T 2) 0).isSome := by
  refine ⟨?_, ?_, ?_, ?_⟩
  · intro cfgTopic pe ev
    rcases ev with m | e
    · rcases m with body | p | p | p | _ | p
      · simp only [handleRecv]
        cases decodeTextBody body <;> rfl
      · rfl
      · cases pe <;> rfl
      · rfl
      · rfl
      · rfl
    · rfl
  · intro now lastTraffic
    unfold watchdogFire
    split
    · simpa using by omega
    · simp
      omega
  · intro k h
    unfold watchdogFire at h
    unfold intervalTick at h ⊢
    split at h
    · omega
    · simp at h
  · unfold watchdogFire intervalTick
    split
    · rfl
    · omega

/-- C5 witness: with `idle_timeout = 5` and no traffic, the tick at
time 10 terminates the session, and 5 ≤ 10. -/
theorem idle_watchdog_witness :
    0 < 5 ∧ (watchdogFire 5 (intervalTick 5 2) 0).isSome ∧ 5 ≤ intervalTick 5 2 :=
  ⟨by decide, (idle_watchdog 5 (by decide)).2.2.2,
    (idle_watchdog 5 (by decide)).2.2.1 2 (idle_watchdog 5 (by decide)).2.2.2⟩

/-- C4: the supervisor loop is unbounded: a trace over any N outcomes
contains exactly N+1 connection attempts; after a failure it logs the
cause and sleeps exactly 5 seconds (a nonzero delay) before the next
attempt, which heads the remaining trace; after a clean close it
prints the clean-closure notice and the next attempt follows with no
intervening sleep. -/
theorem supervisor_retry_discipline :
    (∀ outs, countAttempts (supervisorTrace outs) = outs.length + 1)
    ∧ (∀ c rest, supervisorTrace (.failure c :: rest)
        = .attempt :: .logError c :: .sleep 5 :: supervisorTrace rest)
    ∧ (∀ rest, supervisorTrace (.cleanClose :: rest)
        = .attempt :: .cleanNotice :: supervisorTrace rest)
    ∧ (∀ outs, (supervisorTrace outs).head? = some .attempt)
    ∧ 0 < 5 :=
  ⟨countAttempts_supervisorTrace, fun _ _ => rfl, fun _ => rfl,
    supervisorTrace_head, by decide⟩

theorem resolveTimeout_pos (v : Option String) : 0 < resolveTimeout v := by
  rcases v with _ | s
  · decide
  · cases hp : parseU64 s with
    | none => simp [resolveTimeout, hp, DEFAULT_TIMEOUT]
    | some t =>
      simp only [resolveTimeout, hp]
      split
      · omega
      · simp [DEFAULT_TIMEOUT]

theorem resolveTimeout_of_pos (s : String) (t : Nat)
    (h : parseU64 s = some t) (ht : 0 < t) : resolveTimeout (some s) = t := by
  simp [resolveTimeout, h, ht]

theorem resolveTimeout_not_pos (s : String)
    (h : ∀ t, parseU64 s = some t → t = 0) : resolveTimeout (some s) = 120 := by
  cases hp : parseU64 s with
  | none => simp [resolveTimeout, hp, DEFAULT_TIMEOUT]
  | some t =>
    have h0 := h t hp
    subst h0
    simp [resolveTimeout, hp, DEFAULT_TIMEOUT]

theorem resolveConfig_ok (env : Env) (c : Config) (h : resolveConfig env = .ok c) :
    env.topicVar = some c.topic
    ∧ c.timeout = resolveTimeout env.timeoutVar
    ∧ c.server = env.serverVar.getD "ntfy.sh"
    ∧ c.scheme = env.schemeVar.getD "wss"
    ∧ c.token = env.tokenVar.getD "" := by
  unfold resolveConfig at h
  cases htp : env.topicVar with
  | none => rw [htp] at h; exact absurd h (by simp)
  | some tp =>
    rw [htp] at h
    simp only [Except.ok.injEq] at h
    subst h
    exact ⟨rfl, rfl, rfl, rfl, rfl⟩

/-- C2 (corrected) counterexample: with `TOPIC` unset,
`connect_and_run` fails before any network activity with the
descriptive configuration error — but the supervisor loop then logs
it, sleeps 5 seconds, and makes a second connection attempt: the
process does not abort and does retry. -/
theorem topic_missing_retried :
    configPhaseOutcome ⟨none, none, none, none, none⟩
      = some (.failure "TOPIC environment variable is required")
    ∧ supervisorTrace [.failure "TOPIC environment variable is required"]
      = [.attempt, .logError "TOPIC environment variable is required", .sleep 5, .attempt] :=
  ⟨rfl, rfl⟩

/-- C2 (amended): if `TOPIC` is absent, every `connect_and_run`
invocation fails with the descriptive error before entering its
receive loop; the supervisor treats this like any other failure:
log, 5-second cooldown, reconnect — the process never aborts. -/
theorem topic_missing_outcome (env : Env) (h : env.topicVar = none) :
    configPhaseOutcome env = some (.failure "TOPIC environment variable is required")
    ∧ supervisorTrace [.failure "TOPIC environment variable is required"]
      = [.attempt, .logError "TOPIC environment variable is required", .sleep 5, .attempt] := by
  refine ⟨?_, rfl⟩
  unfold configPhaseOutcome resolveConfig
  rw [h]

/-- C2 witness: the amended statement at the all-unset environment. -/
theorem topic_missing_outcome_witness :
    configPhaseOutcome ⟨some "30", none, none, none, none⟩
      = some (.failure "TOPIC environment variable is required") :=
  (topic_missing_outcome ⟨some "30", none, none, none, none⟩ rfl).1

/-- C3 (corrected) counterexample: `connect_and_run` re-reads the
environment on every invocation, so two sessions of one process that
observe different `TIMEOUT` values resolve different configurations —
refuting "resolved exactly once, never re-read, every session runs
with the same values". -/
theorem config_reread_each_session :
    sessionConfigs [⟨some "30", none, none, some "t", none⟩,
        ⟨some "60", none, none, some "t", none⟩]
      = [.ok ⟨30, "ntfy.sh", "wss", "t", ""⟩, .ok ⟨60, "ntfy.sh", "wss", "t", ""⟩]
    ∧ (⟨30, "ntfy.sh", "wss", "t", ""⟩ : Config) ≠ ⟨60, "ntfy.sh", "wss", "t", ""⟩ :=
  ⟨rfl, by decide⟩

/-- C3 (amended): configuration is resolved from the environment at
the start of every session, inside the supervisor loop; each session's
configuration is a function of the snapshot it read, so all sessions
coincide whenever the environment is unchanged between reads. -/
theorem config_per_session (envs : List Env) (env : Env) (n : Nat) :
    sessionConfigs envs = envs.map resolveConfig
    ∧ sessionConfigs (List.replicate n env) = List.replicate n (resolveConfig env) :=
  ⟨rfl, by simp [sessionConfigs]⟩

/-- C8: a successfully built upgrade request targets exactly
`{scheme}://{server}/{topic}/ws` and carries
`Authorization: Bearer <token>` iff the configured token is
non-empty. -/
theorem connect_request_shape (c : Config) (req : Request)
    (h : buildRequest c = .ok req) :
    req.url = c.scheme ++ "://" ++ c.server ++ "/" ++ c.topic ++ "/ws"
    ∧ (req.authorization = some ("Bearer " ++ c.token) ↔ c.token ≠ "")
    ∧ (req.authorization = none ↔ c.token = "") := by
  unfold buildRequest authHeader at h
  by_cases he : c.token = ""
  · rw [if_pos he] at h
    simp only [Except.ok.injEq] at h
    subst h
    refine ⟨rfl, ?_, by simp [he]⟩
    simp [he]
  · rw [if_neg he] at h
    by_cases hv : headerValueValid ("Bearer " ++ c.token) = true
    · rw [if_pos hv] at h
      simp only [Except.ok.injEq] at h
      subst h
      refine ⟨rfl, ?_, by simp [he]⟩
      simp [he]
    · rw [if_neg hv] at h
      exact absurd h (by simp)

/-- C8 witness: a non-empty token yields the Bearer header on the
templated URL; an empty token yields no header. -/
theorem connect_request_shape_witness :
    buildRequest ⟨120, "ntfy.sh", "wss", "alerts", "tok"⟩
      = .ok ⟨"wss://ntfy.sh/alerts/ws", some "Bearer tok"⟩
    ∧ ((⟨"wss://ntfy.sh/alerts/ws", some "Bearer tok"⟩ : Request).authorization
        = some ("Bearer " ++ "tok") ↔ "tok" ≠ "") :=
  ⟨rfl, (connect_request_shape ⟨120, "ntfy.sh", "wss", "alerts", "tok"⟩
    ⟨"wss://ntfy.sh/alerts/ws", some "Bearer tok"⟩ rfl).2.1⟩

/-- C9 (corrected) counterexample: `TOPIC` set to the empty string is
accepted — the resolved configuration has an empty topic, refuting
the invariant "topic is non-empty". -/
theorem empty_topic_accepted :
    resolveConfig ⟨none, none, none, some "", none⟩ = .ok ⟨120, "ntfy.sh", "wss", "", ""⟩
    ∧ (⟨120, "ntfy.sh", "wss", "", ""⟩ : Config).topic = "" :=
  ⟨rfl, rfl⟩

/-- C9 (amended): every resolved configuration has a strictly positive
idle-timeout — equal to `TIMEOUT` when that parses as a positive
64-bit integer and 120 otherwise — and its topic is exactly the
string `TOPIC` holds, empty or not; only absence of `TOPIC` is
rejected. -/
theorem config_invariants (env : Env) (c : Config) (h : resolveConfig env = .ok c) :
    0 < c.timeout
    ∧ (∀ s t, env.timeoutVar = some s → parseU64 s = some t → 0 < t → c.timeout = t)
    ∧ (env.timeoutVar = none → c.timeout = 120)
    ∧ (∀ s, env.timeoutVar = some s → (∀ t, parseU64 s = some t → t = 0) →
        c.timeout = 120)
    ∧ (∀ s, env.topicVar = some s → c.topic = s) := by
  obtain ⟨htp, hto, _, _, _⟩ := resolveConfig_ok env c h
  refine ⟨hto ▸ resolveTimeout_pos env.timeoutVar, ?_, ?_, ?_, ?_⟩
  · intro s t hvar hparse hpos
    rw [hto, hvar, resolveTimeout_of_pos s t hparse hpos]
  · intro hvar
    rw [hto, hvar]
    rfl
  · intro s hvar hz
    rw [hto, hvar, resolveTimeout_not_pos s hz]
  · intro s hs
    rw [hs] at htp
    exact (Option.some.injEq _ _ ▸ htp).symm

/-- C9 witness: `TIMEOUT="30"` resolves to timeout 30 > 0 with the
given topic. -/
theorem config_invariants_witness :
    resolveConfig ⟨some "30", none, none, some "t", none⟩ = .ok ⟨30, "ntfy.sh", "wss", "t", ""⟩
    ∧ 0 < (⟨30, "ntfy.sh", "wss", "t", ""⟩ : Config).timeout :=
  ⟨rfl, (config_invariants ⟨some "30", none, none, some "t", none⟩
    ⟨30, "ntfy.sh", "wss", "t", ""⟩ rfl).1⟩

end NtfyClip
